import Mathlib

/-!
Verification of the admission controller (`src/app/rate_limiter.py`) and the
retrieval-augmented generation engine (`src/app/rag.py`) of the personal
chatbot service, as a shallow embedding in Lean.

Modelling conventions:
* instants (`datetime`) are integers counting seconds; `timedelta(hours=1)`
  is `3600`, `timedelta(days=1)` is `86400`; `datetime.now()` becomes an
  explicit `now : Int` argument threaded through every operation;
* Python floats (costs, temperatures, scores) are modelled as rationals `ℚ`;
* formatted strings that merely render a value (`isoformat`, `f"${c:.2f}"`)
  are modelled by the rendered value itself where a claim speaks of the value
  carried, and by an explicit `String` rendering where the claim is about the
  payload shape;
* each Python method that mutates `self` becomes a pure function from the
  pre-state to (result, post-state); a raised `HTTPException` becomes the
  `Except.error` branch, still paired with the post-state, because the Python
  methods mutate `self` (window rollover, pruning) before raising.
-/

namespace MyBot

/-- `app/config.py`, `class Settings(BaseSettings)`: the configuration
snapshot.  The three API-key strings and the provider-naming fields that the
admission controller and RAG engine never read (`pinecone_environment`,
`pinecone_index_name`, `embedding_model`, `embedding_dimensions`,
`chunk_size`, `chunk_overlap`, `log_file_path`) are kept for faithfulness
even though no modelled operation consults them.  `rate_limit_per_hour`,
`max_output_tokens` and the token counters are `Nat`: `validate_config`
requires the first two to be positive, and Python request counts are
list lengths, hence non-negative. -/
structure Settings where
  anthropic_api_key : String
  pinecone_api_key : String
  openai_api_key : String
  pinecone_environment : String := "us-east-1-aws"
  pinecone_index_name : String := "personal-chatbot"
  rate_limit_per_hour : Nat := 30
  max_output_tokens : Nat := 4000
  max_daily_cost : ℚ := 5
  api_enabled : Bool := true
  emergency_message : String := "API temporarily disabled for maintenance"
  claude_model : String := "claude-sonnet-4-5-20250929"
  claude_temperature : ℚ := 7/10
  embedding_model : String := "text-embedding-3-small"
  embedding_dimensions : Nat := 1536
  retrieval_top_k : Nat := 5
  chunk_size : Nat := 1000
  chunk_overlap : Nat := 200
  log_file_path : String := "./usage_logs.json"
deriving Repr, DecidableEq

/-- A `Settings` value with every default, as produced by `Settings()` in
`app/config.py` when only the three required keys come from the
environment. -/
def defaultSettings : Settings :=
  { anthropic_api_key := "k1", pinecone_api_key := "k2", openai_api_key := "k3" }

/-- The mutable state of `GlobalRateLimiter` (`app/rate_limiter.py`):
`hourly_requests` (list of admission instants, appended in call order),
`hourly_reset_time`, `daily_tokens_used`, `daily_estimated_cost`,
`daily_reset_time`. -/
structure LimiterState where
  hourly_requests : List Int
  hourly_reset_time : Int
  daily_tokens_used : Nat
  daily_estimated_cost : ℚ
  daily_reset_time : Int
deriving Repr, DecidableEq

/-- `datetime.now().replace(hour=0, minute=0, second=0, microsecond=0)`:
the midnight that starts the current day, with days of 86400 seconds. -/
def midnightOf (now : Int) : Int := 86400 * (now / 86400)

/-- `GlobalRateLimiter._reset_hourly_data`. -/
def resetHourlyData (now : Int) (s : LimiterState) : LimiterState :=
  { s with hourly_requests := [], hourly_reset_time := now + 3600 }

/-- `GlobalRateLimiter._reset_daily_data`. -/
def resetDailyData (now : Int) (s : LimiterState) : LimiterState :=
  { s with daily_tokens_used := 0, daily_estimated_cost := 0,
           daily_reset_time := midnightOf now + 86400 }

/-- `GlobalRateLimiter.__init__` (after taking the lock structure): resets
both windows at construction time. -/
def initState (now : Int) : LimiterState :=
  resetDailyData now (resetHourlyData now
    { hourly_requests := [], hourly_reset_time := 0, daily_tokens_used := 0,
      daily_estimated_cost := 0, daily_reset_time := 0 })

/-- `GlobalRateLimiter._clean_old_requests`: keep only instants strictly
newer than `now - 1 hour`. -/
def cleanOldRequests (now : Int) (s : LimiterState) : LimiterState :=
  { s with hourly_requests :=
      s.hourly_requests.filter (fun req_time => now - 3600 < req_time) }

/-- `GlobalRateLimiter._check_hourly_reset`. -/
def checkHourlyReset (now : Int) (s : LimiterState) : LimiterState :=
  if s.hourly_reset_time ≤ now then resetHourlyData now s else s

/-- `GlobalRateLimiter._check_daily_reset`. -/
def checkDailyReset (now : Int) (s : LimiterState) : LimiterState :=
  if s.daily_reset_time ≤ now then resetDailyData now s else s

/-- The `RateLimitError` payload raised by `_check_hourly_limit`
(`error`, `message`, `current_usage`, `reset_in_minutes`, `try_again_at`).
`current_usage` keeps its Python shape `f"{current_count}/{limit}"`;
`try_again_at` (an `isoformat` string in Python) is modelled by the instant
it renders. -/
structure RateLimitError where
  errorTag : String
  message : String
  current_usage : String
  reset_in_minutes : Int
  try_again_at : Int
deriving Repr, DecidableEq

/-- The `CostLimitError` payload raised by `_check_cost_limit`
(`error`, `message`, `current_cost`, `resets_at`).  `current_cost`
(`f"${c:.2f}"` in Python) and the ceiling embedded in `message` are modelled
by the values they render; `resets_at` by the instant. -/
structure CostLimitError where
  errorTag : String
  current_cost : ℚ
  cost_limit : ℚ
  resets_at : Int
deriving Repr, DecidableEq

/-- The three `HTTPException`s an admission check can raise:
503 with the emergency message (`_check_api_enabled`),
429 with a `RateLimitError` (`_check_hourly_limit`),
429 with a `CostLimitError` (`_check_cost_limit`). -/
inductive AdmissionError where
  | serviceDisabled (message : String)
  | rateLimitExceeded (e : RateLimitError)
  | costLimitExceeded (e : CostLimitError)
deriving Repr, DecidableEq

/-- The `UsageStats` dict returned by a successful `check_rate_limit`. -/
structure UsageStats where
  requests_this_hour : Nat
  limit_per_hour : Nat
  remaining_this_hour : Int
  daily_cost : ℚ
  daily_cost_limit : ℚ
deriving Repr, DecidableEq

/-- `GlobalRateLimiter._check_hourly_limit`: the error payload built when
`current_count >= settings.rate_limit_per_hour`.  Python computes
`int(time_until_reset / 60)` where `int` truncates toward zero, which is
`Int.div` on seconds. -/
def hourlyLimitError (cfg : Settings) (now : Int) (s : LimiterState)
    (current_count : Nat) : RateLimitError :=
  { errorTag := "Rate limit exceeded",
    message := "Global rate limit of " ++ toString cfg.rate_limit_per_hour
      ++ " requests per hour reached",
    current_usage := toString current_count ++ "/"
      ++ toString cfg.rate_limit_per_hour,
    reset_in_minutes := Int.tdiv (s.hourly_reset_time - now) 60,
    try_again_at := s.hourly_reset_time }

/-- `GlobalRateLimiter.check_rate_limit`, the whole critical section: kill
switch, lazy hourly and daily rollover, pruning, hourly ceiling, daily cost
ceiling, then append `now` and return the snapshot.  The post-state is
returned in the error branches too, since the Python method has already
mutated `self` (rollover, pruning) when it raises. -/
def checkRateLimit (cfg : Settings) (now : Int) (s : LimiterState) :
    Except AdmissionError UsageStats × LimiterState :=
  if ¬ cfg.api_enabled then
    (Except.error (AdmissionError.serviceDisabled cfg.emergency_message), s)
  else
    let s1 := checkHourlyReset now s
    let s2 := checkDailyReset now s1
    let s3 := cleanOldRequests now s2
    let current_count := s3.hourly_requests.length
    if cfg.rate_limit_per_hour ≤ current_count then
      (Except.error (AdmissionError.rateLimitExceeded
        (hourlyLimitError cfg now s3 current_count)), s3)
    else if cfg.max_daily_cost ≤ s3.daily_estimated_cost then
      (Except.error (AdmissionError.costLimitExceeded
        { errorTag := "Daily cost limit exceeded",
          current_cost := s3.daily_estimated_cost,
          cost_limit := cfg.max_daily_cost,
          resets_at := s3.daily_reset_time }), s3)
    else
      let s4 := { s3 with hourly_requests := s3.hourly_requests ++ [now] }
      (Except.ok
        { requests_this_hour := current_count + 1,
          limit_per_hour := cfg.rate_limit_per_hour,
          remaining_this_hour :=
            (cfg.rate_limit_per_hour : Int) - current_count - 1,
          daily_cost := s3.daily_estimated_cost,
          daily_cost_limit := cfg.max_daily_cost }, s4)

/-- The `UsageRecord` dict returned by `record_usage`. -/
structure UsageRecord where
  tokens_used : Nat
  estimated_cost : ℚ
  daily_total_tokens : Nat
  daily_total_cost : ℚ
deriving Repr, DecidableEq

/-- `GlobalRateLimiter.record_usage`: lazy daily rollover, then cost from
the constants hardcoded in the method body
(`input_cost = (input_tokens / 1_000_000) * 3.0`,
`output_cost = (output_tokens / 1_000_000) * 15.0`), then accumulate.
The `cfg` argument mirrors the ambient `settings` import that is in scope
in the Python method; the method body never reads it. -/
def recordUsage (_cfg : Settings) (input_tokens output_tokens : Nat)
    (now : Int) (s : LimiterState) : UsageRecord × LimiterState :=
  let s1 := checkDailyReset now s
  let input_cost := ((input_tokens : ℚ) / 1000000) * 3
  let output_cost := ((output_tokens : ℚ) / 1000000) * 15
  let total_cost := input_cost + output_cost
  let s2 := { s1 with
    daily_tokens_used := s1.daily_tokens_used + (input_tokens + output_tokens),
    daily_estimated_cost := s1.daily_estimated_cost + total_cost }
  ({ tokens_used := input_tokens + output_tokens,
     estimated_cost := total_cost,
     daily_total_tokens := s2.daily_tokens_used,
     daily_total_cost := s2.daily_estimated_cost }, s2)

/-- The `RateLimitStats` snapshot returned by `get_stats` (hourly and daily
sub-dicts flattened; the isoformat strings modelled by their instants;
`round(x, 4)` modelled by the exact rational it renders from). -/
structure RateLimitStats where
  api_enabled : Bool
  requests_used : Nat
  requests_limit : Nat
  requests_remaining : Int
  hourly_resets_in_seconds : Int
  hourly_resets_at : Int
  tokens_used : Nat
  estimated_cost : ℚ
  cost_limit : ℚ
  cost_remaining : ℚ
  daily_resets_in_seconds : Int
  daily_resets_at : Int
deriving Repr, DecidableEq

/-- `GlobalRateLimiter.get_stats`: same lazy rollovers and pruning, then a
read-only snapshot; the post-state records the rollover/pruning mutations. -/
def getStats (cfg : Settings) (now : Int) (s : LimiterState) :
    RateLimitStats × LimiterState :=
  let s1 := checkHourlyReset now s
  let s2 := checkDailyReset now s1
  let s3 := cleanOldRequests now s2
  let current_count := s3.hourly_requests.length
  ({ api_enabled := cfg.api_enabled,
     requests_used := current_count,
     requests_limit := cfg.rate_limit_per_hour,
     requests_remaining := (cfg.rate_limit_per_hour : Int) - current_count,
     hourly_resets_in_seconds := s3.hourly_reset_time - now,
     hourly_resets_at := s3.hourly_reset_time,
     tokens_used := s3.daily_tokens_used,
     estimated_cost := s3.daily_estimated_cost,
     cost_limit := cfg.max_daily_cost,
     cost_remaining := cfg.max_daily_cost - s3.daily_estimated_cost,
     daily_resets_in_seconds := s3.daily_reset_time - now,
     daily_resets_at := s3.daily_reset_time }, s3)

/-- `true` exactly on the successful branch of an admission check. -/
def admissionOk : Except AdmissionError UsageStats → Bool
  | Except.ok _ => true
  | Except.error _ => false

/-- A sequence of `check_rate_limit` calls at the given instants, threading
the controller state; returns every call's outcome in call order together
with the final state. -/
def runChecks (cfg : Settings) (ts : List Int) (s : LimiterState) :
    List (Except AdmissionError UsageStats) × LimiterState :=
  match ts with
  | [] => ([], s)
  | t :: rest =>
      let step := checkRateLimit cfg t s
      let rest_run := runChecks cfg rest step.2
      (step.1 :: rest_run.1, rest_run.2)

/-- One atomic public operation on the controller.  Each of the three public
methods holds the single `threading.Lock` for its full body, so in the
concurrency model of the spec an execution is an arbitrary interleaving of
these whole-method steps. -/
inductive LimiterStep (cfg : Settings) : LimiterState → LimiterState → Prop where
  | check (now : Int) (s : LimiterState) :
      LimiterStep cfg s (checkRateLimit cfg now s).2
  | record (input_tokens output_tokens : Nat) (now : Int) (s : LimiterState) :
      LimiterStep cfg s (recordUsage cfg input_tokens output_tokens now s).2
  | stats (now : Int) (s : LimiterState) :
      LimiterStep cfg s (getStats cfg now s).2

/-- States reachable from a freshly constructed controller by any sequence
of atomic public operations at arbitrary instants. -/
inductive Reachable (cfg : Settings) : LimiterState → Prop where
  | init (t0 : Int) : Reachable cfg (initState t0)
  | step {s s' : LimiterState} :
      Reachable cfg s → LimiterStep cfg s s' → Reachable cfg s'

/-- Invariant holding between the `check_rate_limit` calls of one hourly
window that starts with a controller freshly constructed at `t0`: the
request list has `k` entries, all at or after `t0`, the hourly hard-reset
instant is still `t0 + 3600`, and no usage has been recorded. -/
structure WindowInv (t0 : Int) (k : Nat) (s : LimiterState) : Prop where
  len : s.hourly_requests.length = k
  mem : ∀ t ∈ s.hourly_requests, t0 ≤ t
  hrt : s.hourly_reset_time = t0 + 3600
  cost : s.daily_estimated_cost = 0

/-! ## RAG engine (`src/app/rag.py`)

The engine's two providers (Pinecone similarity search, Anthropic message
generation) are modelled as function parameters, so that theorems can
quantify over provider behaviour. -/

/-- The `RetrievedChunk` TypedDict of `app/rag.py`. -/
structure RetrievedChunk where
  content : String
  source : String
  score : ℚ
deriving Repr, DecidableEq

/-- The `RAGResponse` TypedDict of `app/rag.py`. -/
structure RAGResponse where
  answer : String
  sources : List RetrievedChunk
  input_tokens : Nat
  output_tokens : Nat
  model : String
deriving Repr, DecidableEq

/-- A langchain `Document` as `retrieve_context` consumes it:
`page_content` plus the `"source"` entry of `metadata` (`none` when the
metadata map has no `"source"` key — the only key the code reads). -/
structure Doc where
  page_content : String
  metadata_source : Option String
deriving Repr, DecidableEq

/-- The vector-search provider:
`vectorstore.similarity_search_with_score(query, k)` returns scored
documents in the provider's relevance order. -/
abbrev SearchProvider : Type := String → Nat → List (Doc × ℚ)

/-- The request `generate_response` sends to
`client.messages.create(...)`. -/
structure GenRequest where
  model : String
  max_tokens : Nat
  temperature : ℚ
  system : String
  user : String
deriving Repr, DecidableEq

/-- What the generation provider returns: `response.content[0].text` and
`response.usage.input_tokens` / `output_tokens`. -/
structure GenResult where
  text : String
  input_tokens : Nat
  output_tokens : Nat
deriving Repr, DecidableEq

/-- The generation provider (`anthropic` client). -/
abbrev GenProvider : Type := GenRequest → GenResult

/-- The module-level `SYSTEM_PROMPT` string of `app/rag.py`. -/
def SYSTEM_PROMPT : String :=
  "You are a helpful AI assistant answering questions about a person based on their personal information, research papers, and other documents. \n\nUse the provided context to answer questions accurately. If the answer isn't in the context, say so - don't make things up.\n\nWhen referencing information, you can mention which source it came from if relevant."

/-- `USER_PROMPT_TEMPLATE.format(context=..., query=...)`: the module-level
template of `app/rag.py` with its two placeholders substituted. -/
def userPromptTemplate (context query : String) : String :=
  "Context from knowledge base:\n\n" ++ context
    ++ "\n\n---\n\nQuestion: " ++ query
    ++ "\n\nPlease provide a helpful and accurate answer based on the context above."

/-- `RAGEngine._format_chunk`: `f"[Source: {chunk['source']}]\n{chunk['content']}"`. -/
def formatChunk (chunk : RetrievedChunk) : String :=
  "[Source: " ++ chunk.source ++ "]\n" ++ chunk.content

/-- The `k = top_k or settings.retrieval_top_k` line of `retrieve_context`:
Python `or` substitutes the default both when `top_k` is `None` and when it
is the falsy integer `0`. -/
def effectiveTopK (cfg : Settings) (top_k : Option Nat) : Nat :=
  match top_k with
  | none => cfg.retrieval_top_k
  | some n => if n = 0 then cfg.retrieval_top_k else n

/-- The body of the `for doc, score in results:` loop of `retrieve_context`,
appending one chunk per result to the growing `chunks` list;
`doc.metadata.get("source", "unknown")` is `Option.getD`. -/
def retrieveLoop (results : List (Doc × ℚ)) (chunks : List RetrievedChunk) :
    List RetrievedChunk :=
  match results with
  | [] => chunks
  | (doc, score) :: rest =>
      retrieveLoop rest (chunks ++
        [{ content := doc.page_content,
           source := doc.metadata_source.getD "unknown",
           score := score }])

/-- `RAGEngine.retrieve_context`. -/
def retrieveContext (search : SearchProvider) (cfg : Settings)
    (query : String) (top_k : Option Nat) : List RetrievedChunk :=
  let k := effectiveTopK cfg top_k
  let results := search query k
  retrieveLoop results []

/-- `RAGEngine.generate_response`: join the formatted chunks with a blank
line, fill the user-prompt template, call the provider with the configured
model, output budget and temperature, and package the answer with the
original chunks and the provider-reported token counts. -/
def generateResponse (gen : GenProvider) (cfg : Settings) (query : String)
    (context_chunks : List RetrievedChunk) : RAGResponse :=
  let context := String.intercalate "\n\n" (context_chunks.map formatChunk)
  let user_prompt := userPromptTemplate context query
  let response := gen
    { model := cfg.claude_model, max_tokens := cfg.max_output_tokens,
      temperature := cfg.claude_temperature, system := SYSTEM_PROMPT,
      user := user_prompt }
  { answer := response.text,
    sources := context_chunks,
    input_tokens := response.input_tokens,
    output_tokens := response.output_tokens,
    model := cfg.claude_model }

/-- The fixed short-circuit answer of `RAGEngine.query`. -/
def noInfoAnswer : String :=
  "I don't have any information in my knowledge base to answer that question."

/-- `RAGEngine.query`: retrieve, short-circuit on an empty retrieval,
otherwise generate. -/
def ragQuery (search : SearchProvider) (gen : GenProvider) (cfg : Settings)
    (question : String) (top_k : Option Nat) : RAGResponse :=
  let chunks := retrieveContext search cfg question top_k
  if chunks.isEmpty then
    { answer := noInfoAnswer, sources := [], input_tokens := 0,
      output_tokens := 0, model := cfg.claude_model }
  else
    generateResponse gen cfg question chunks

/-! ## HTTP boundary (`src/app/main.py`), as far as claim C10 needs it -/

/-- The pydantic validation of `ChatRequest` in `app/main.py`:
`message` has `min_length=1, max_length=1000`, `top_k` is optional with
`ge=1, le=20`. -/
def chatRequestValid (message : String) (top_k : Option Int) : Prop :=
  1 ≤ message.length ∧ message.length ≤ 1000 ∧
    ∀ k ∈ top_k, 1 ≤ k ∧ k ≤ 20

instance (message : String) (top_k : Option Int) :
    Decidable (chatRequestValid message top_k) := by
  unfold chatRequestValid; infer_instance

/-! ## Concrete instances used to exercise the theorems -/

/-- Default settings with an hourly ceiling of 2, so ceilings are cheap to
reach in concrete runs. -/
def cfgSmall : Settings := { defaultSettings with rate_limit_per_hour := 2 }

/-- Default settings with the kill switch off. -/
def cfgDisabled : Settings := { defaultSettings with api_enabled := false }

/-- Default settings except for fields a per-model price table would
plausibly live behind: a different model name and a different daily
ceiling.  `config.py` has no pricing field at all, so this is as close to
"other pricing configuration" as the code allows. -/
def cfgOtherModel : Settings :=
  { defaultSettings with
    claude_model := "claude-3-5-haiku-20241022",
    max_daily_cost := 100,
    anthropic_api_key := "other" }

/-- Default settings with an hourly ceiling of 1. -/
def cfgOne : Settings := { defaultSettings with rate_limit_per_hour := 1 }

/-- A controller state 90 seconds before its hourly hard reset, holding one
still-active request instant. -/
def stateNearReset : LimiterState :=
  { hourly_requests := [-10], hourly_reset_time := 90,
    daily_tokens_used := 0, daily_estimated_cost := 0,
    daily_reset_time := 86400 }

/-- `stateNearReset` after the rollover checks and pruning of a
`check_rate_limit` call at instant 0 (nothing fires, nothing is pruned). -/
def stateNearResetPost : LimiterState := stateNearReset

/-- The `RateLimitError` payload produced by `check_rate_limit` on
`cfgOne` / `stateNearReset` at instant 0. -/
def rateErrAtNearReset : RateLimitError :=
  { errorTag := "Rate limit exceeded",
    message := "Global rate limit of 1 requests per hour reached",
    current_usage := "1/1",
    reset_in_minutes := 1,
    try_again_at := 90 }

/-- A controller state whose accrued daily cost (6) already exceeds the
default daily ceiling (5), with hourly headroom. -/
def stateOverBudget : LimiterState :=
  { hourly_requests := [], hourly_reset_time := 3600,
    daily_tokens_used := 2000000, daily_estimated_cost := 6,
    daily_reset_time := 86400 }

/-- A vector-search provider with an empty index: zero matches for every
query. -/
def emptySearch : SearchProvider := fun _ _ => []

/-- A vector-search provider returning two fixed scored passages, the
second without a `"source"` metadata entry. -/
def twoDocSearch : SearchProvider := fun _ _ =>
  [({ page_content := "A", metadata_source := some "a.pdf" }, 1/2),
   ({ page_content := "B", metadata_source := none }, 1/4)]

/-- A generation provider returning a fixed answer and token counts. -/
def constGen : GenProvider :=
  fun _ => { text := "hello", input_tokens := 11, output_tokens := 7 }

/-- The chunk `{content: "A", source: "a.pdf"}` of the spec's
`generate_response` test vector. -/
def chunkA : RetrievedChunk := { content := "A", source := "a.pdf", score := 1/2 }

/-- The chunk `{content: "B", source: "b.pdf"}` of the spec's
`generate_response` test vector. -/
def chunkB : RetrievedChunk := { content := "B", source := "b.pdf", score := 1/4 }

deriving instance DecidableEq for Except

/-! ## Helper lemmas about the window bookkeeping -/

lemma checkHourlyReset_of_lt {now : Int} {s : LimiterState}
    (h : now < s.hourly_reset_time) : checkHourlyReset now s = s := by
  unfold checkHourlyReset
  rw [if_neg (not_le.mpr h)]

lemma checkDailyReset_of_lt {now : Int} {s : LimiterState}
    (h : now < s.daily_reset_time) : checkDailyReset now s = s := by
  unfold checkDailyReset
  rw [if_neg (not_le.mpr h)]

lemma checkHourlyReset_daily_reset_time (now : Int) (s : LimiterState) :
    (checkHourlyReset now s).daily_reset_time = s.daily_reset_time := by
  unfold checkHourlyReset resetHourlyData
  split <;> rfl

lemma checkHourlyReset_daily_cost (now : Int) (s : LimiterState) :
    (checkHourlyReset now s).daily_estimated_cost = s.daily_estimated_cost := by
  unfold checkHourlyReset resetHourlyData
  split <;> rfl

lemma checkHourlyReset_length_le (now : Int) (s : LimiterState) :
    (checkHourlyReset now s).hourly_requests.length
      ≤ s.hourly_requests.length := by
  unfold checkHourlyReset resetHourlyData
  split <;> simp

lemma checkDailyReset_hourly_requests (now : Int) (s : LimiterState) :
    (checkDailyReset now s).hourly_requests = s.hourly_requests := by
  unfold checkDailyReset resetDailyData
  split <;> rfl

lemma checkDailyReset_hourly_reset_time (now : Int) (s : LimiterState) :
    (checkDailyReset now s).hourly_reset_time = s.hourly_reset_time := by
  unfold checkDailyReset resetDailyData
  split <;> rfl

lemma checkDailyReset_cost_eq_zero {now : Int} {s : LimiterState}
    (h : s.daily_estimated_cost = 0) :
    (checkDailyReset now s).daily_estimated_cost = 0 := by
  unfold checkDailyReset resetDailyData
  split <;> simp [h]

lemma cleanOldRequests_eq_self {now : Int} {s : LimiterState}
    (h : ∀ t ∈ s.hourly_requests, now - 3600 < t) :
    cleanOldRequests now s = s := by
  unfold cleanOldRequests
  have hf : s.hourly_requests.filter (fun req_time => now - 3600 < req_time)
      = s.hourly_requests :=
    List.filter_eq_self.mpr (fun a ha => decide_eq_true (h a ha))
  rw [hf]

lemma rollPrune_length_le (now : Int) (s : LimiterState) :
    (cleanOldRequests now (checkDailyReset now
        (checkHourlyReset now s))).hourly_requests.length
      ≤ s.hourly_requests.length := by
  calc (cleanOldRequests now (checkDailyReset now
          (checkHourlyReset now s))).hourly_requests.length
      ≤ (checkDailyReset now
          (checkHourlyReset now s)).hourly_requests.length :=
        List.length_filter_le _ _
    _ = (checkHourlyReset now s).hourly_requests.length := by
        rw [checkDailyReset_hourly_requests]
    _ ≤ s.hourly_requests.length := checkHourlyReset_length_le now s

/-! ## Claims C8, C3, C6, C7, C10, C4 -/

/-- C8: with the kill switch off, `check_rate_limit` fails immediately with
the 503 / `ServiceDisabled` error carrying `settings.emergency_message`,
before any rollover, pruning or limit check, and the controller state is
returned entirely unchanged. -/
theorem claim_C8 (cfg : Settings) (now : Int) (s : LimiterState)
    (h : cfg.api_enabled = false) :
    checkRateLimit cfg now s =
      (Except.error (AdmissionError.serviceDisabled cfg.emergency_message),
       s) := by
  unfold checkRateLimit
  rw [if_pos (by simp [h])]

/-- Witness for C8: a disabled controller rejects a concrete call at instant
0 with the maintenance message and does not change the fresh state. -/
theorem claim_C8_witness :
    checkRateLimit cfgDisabled 0 (initState 0) =
      (Except.error (AdmissionError.serviceDisabled
        cfgDisabled.emergency_message), initState 0) :=
  claim_C8 cfgDisabled 0 (initState 0) rfl

/-- C3: whenever retrieval is empty, `query` returns the fixed
"no information in knowledge base" answer, empty sources, zero token
counts and the configured model, for every generation provider — the
result does not depend on `gen`, which is the purely functional reading of
"`generate_response` is never called". -/
theorem claim_C3 (search : SearchProvider) (gen : GenProvider)
    (cfg : Settings) (question : String) (top_k : Option Nat)
    (hempty : retrieveContext search cfg question top_k = []) :
    ragQuery search gen cfg question top_k =
      { answer := noInfoAnswer, sources := [], input_tokens := 0,
        output_tokens := 0, model := cfg.claude_model } := by
  simp [ragQuery, hempty]

/-- Witness for C3: the empty-index provider short-circuits a concrete
query under the default settings. -/
theorem claim_C3_witness :
    ragQuery emptySearch constGen defaultSettings "who?" none =
      { answer := noInfoAnswer, sources := [], input_tokens := 0,
        output_tokens := 0, model := defaultSettings.claude_model } :=
  claim_C3 emptySearch constGen defaultSettings "who?" none rfl

/-- The accumulating retrieval loop is `List.map` of the per-result chunk
conversion. -/
lemma retrieveLoop_eq (results : List (Doc × ℚ)) (acc : List RetrievedChunk) :
    retrieveLoop results acc = acc ++ results.map (fun r =>
      { content := r.1.page_content,
        source := r.1.metadata_source.getD "unknown",
        score := r.2 }) := by
  induction results generalizing acc with
  | nil => simp [retrieveLoop]
  | cons r rest ih => simp [retrieveLoop, ih]

/-- C6: `retrieve_context` returns exactly one chunk per provider result, in
the provider's order, with `content` the passage text verbatim, `source`
the metadata source when present and `"unknown"` otherwise, and `score` the
provider similarity value; in particular an empty provider result gives an
empty chunk list. -/
theorem claim_C6 (search : SearchProvider) (cfg : Settings) (query : String)
    (top_k : Option Nat) :
    retrieveContext search cfg query top_k =
      (search query (effectiveTopK cfg top_k)).map (fun r =>
        { content := r.1.page_content,
          source := r.1.metadata_source.getD "unknown",
          score := r.2 })
    ∧ (retrieveContext search cfg query top_k).length
        = (search query (effectiveTopK cfg top_k)).length := by
  constructor
  · simp [retrieveContext, retrieveLoop_eq]
  · simp [retrieveContext, retrieveLoop_eq]

/-- C7: `generate_response` sends the generation provider exactly the user
prompt obtained by formatting each chunk as `"[Source: {source}]\n{content}"`,
joining the blocks with a blank line in chunk order and embedding the joined
context and the literal query in the fixed template (first conjunct, for
every provider, configuration, query and chunk list); on the spec's concrete
chunks `A@a.pdf`, `B@b.pdf` the composed prompt contains
`"[Source: a.pdf]"`, `"A"`, `"[Source: b.pdf]"`, `"B"` in that order
(second conjunct, with the explicit decomposition). -/
theorem claim_C7 :
    (∀ (gen : GenProvider) (cfg : Settings) (query : String)
        (chunks : List RetrievedChunk),
      (generateResponse gen cfg query chunks).answer =
        (gen { model := cfg.claude_model,
               max_tokens := cfg.max_output_tokens,
               temperature := cfg.claude_temperature,
               system := SYSTEM_PROMPT,
               user := userPromptTemplate
                 (String.intercalate "\n\n" (chunks.map formatChunk))
                 query }).text)
    ∧ ∃ pre mid post,
      userPromptTemplate
          (String.intercalate "\n\n" ([chunkA, chunkB].map formatChunk))
          "What?" =
        pre ++ "[Source: a.pdf]" ++ "\n" ++ "A" ++ mid
          ++ "[Source: b.pdf]" ++ "\n" ++ "B" ++ post := by
  refine ⟨fun gen cfg query chunks => rfl,
    "Context from knowledge base:\n\n", "\n\n",
    "\n\n---\n\nQuestion: What?\n\nPlease provide a helpful and accurate answer based on the context above.", ?_⟩
  rfl

/-- C10: `top_k = 0` is substituted by the configured default exactly like
an absent `top_k` (Python truthiness in `top_k or settings.retrieval_top_k`),
so `retrieve_context` behaves identically on `some 0` and `none`; and the
HTTP boundary validation (`ge=1, le=20`) keeps callers from ever passing 0. -/
theorem claim_C10 (cfg : Settings) (query : String) :
    effectiveTopK cfg (some 0) = cfg.retrieval_top_k
    ∧ effectiveTopK cfg (some 0) = effectiveTopK cfg none
    ∧ (∀ search : SearchProvider,
        retrieveContext search cfg query (some 0) =
          retrieveContext search cfg query none)
    ∧ (∀ (message : String) (tk : Option Int),
        chatRequestValid message tk → ∀ k ∈ tk, k ≠ 0) := by
  refine ⟨rfl, rfl, fun search => rfl, ?_⟩
  intro message tk hv k hk
  have h := hv.2.2 k hk
  omega

/-- Witness for C10: the default configuration substitutes 5 for a `top_k`
of 0, a concrete provider call agrees on `some 0` and `none`, and the
validated request (`"hi"`, `top_k = 5`) has a nonzero `top_k`. -/
theorem claim_C10_witness :
    effectiveTopK defaultSettings (some 0) = defaultSettings.retrieval_top_k
    ∧ retrieveContext twoDocSearch defaultSettings "q" (some 0) =
        retrieveContext twoDocSearch defaultSettings "q" none
    ∧ (5 : Int) ≠ 0 :=
  ⟨(claim_C10 defaultSettings "q").1,
   (claim_C10 defaultSettings "q").2.2.1 twoDocSearch,
   (claim_C10 defaultSettings "q").2.2.2 "hi" (some 5) (by decide) 5 rfl⟩

/-- C4 (amended): `record_usage` computes
`cost = input_tokens/1e6 * 3 + output_tokens/1e6 * 15` with the `$3`/`$15`
per-million prices hardcoded in the method body (the published default
pricing for the default model; the result is independent of the
configuration, which has no pricing field), adds the tokens and the cost to
the (lazily rolled-over) daily totals, returns the tokens used, the cost
and the new totals, and `record_usage(1_000_000, 1_000_000)` costs exactly
18. -/
theorem claim_C4_amended (cfg : Settings) (input_tokens output_tokens : Nat)
    (now : Int) (s : LimiterState) :
    ((recordUsage cfg input_tokens output_tokens now s).1.estimated_cost =
        ((input_tokens : ℚ) / 1000000) * 3
          + ((output_tokens : ℚ) / 1000000) * 15)
    ∧ (recordUsage cfg input_tokens output_tokens now s).1.tokens_used
        = input_tokens + output_tokens
    ∧ (recordUsage cfg input_tokens output_tokens now s).2.daily_tokens_used
        = (checkDailyReset now s).daily_tokens_used
            + (input_tokens + output_tokens)
    ∧ (recordUsage cfg input_tokens output_tokens now s).2.daily_estimated_cost
        = (checkDailyReset now s).daily_estimated_cost
            + (((input_tokens : ℚ) / 1000000) * 3
                + ((output_tokens : ℚ) / 1000000) * 15)
    ∧ (recordUsage cfg input_tokens output_tokens now s).1.daily_total_tokens
        = (recordUsage cfg input_tokens output_tokens now s).2.daily_tokens_used
    ∧ (recordUsage cfg input_tokens output_tokens now s).1.daily_total_cost
        = (recordUsage cfg input_tokens
            output_tokens now s).2.daily_estimated_cost
    ∧ (∀ cfgOther : Settings,
        recordUsage cfgOther input_tokens output_tokens now s
          = recordUsage cfg input_tokens output_tokens now s)
    ∧ (recordUsage cfg 1000000 1000000 now s).1.estimated_cost = 18 := by
  refine ⟨rfl, rfl, rfl, rfl, rfl, rfl, fun cfgOther => rfl, ?_⟩
  show ((1000000 : Nat) : ℚ) / 1000000 * 3
      + ((1000000 : Nat) : ℚ) / 1000000 * 15 = 18
  norm_num

/-- Counterexample for C4 as stated: the cost computed by `record_usage` is
not "taken from configuration" — `Settings` (faithful to `config.py`) has
no pricing field, and a configuration differing in the model name, the
daily ceiling and the API key produces the bit-for-bit identical usage
record, still costing exactly 18 for a million tokens each way. -/
theorem claim_C4_counterexample :
    cfgOtherModel ≠ defaultSettings
    ∧ cfgOtherModel.claude_model ≠ defaultSettings.claude_model
    ∧ recordUsage cfgOtherModel 1000000 1000000 0 (initState 0)
        = recordUsage defaultSettings 1000000 1000000 0 (initState 0)
    ∧ (recordUsage cfgOtherModel 1000000 1000000 0
        (initState 0)).1.estimated_cost = 18 := by
  refine ⟨by decide, by decide, rfl, ?_⟩
  show ((1000000 : Nat) : ℚ) / 1000000 * 3
      + ((1000000 : Nat) : ℚ) / 1000000 * 15 = 18
  norm_num

/-- C9 (amended): whenever `check_rate_limit` fails with the rate-limit
error, the payload carries the current usage count and the configured
ceiling (as the `"count/limit"` string and in the message), the number of
whole minutes until `hourly_window_reset_at` (`int(seconds/60)`, i.e.
truncating division — not the number of seconds), and the reset instant
itself (`try_again_at`). -/
theorem claim_C9_amended (cfg : Settings) (now : Int) (s s' : LimiterState)
    (e : RateLimitError)
    (h : checkRateLimit cfg now s =
      (Except.error (AdmissionError.rateLimitExceeded e), s')) :
    e.current_usage = toString s'.hourly_requests.length ++ "/"
        ++ toString cfg.rate_limit_per_hour
    ∧ cfg.rate_limit_per_hour ≤ s'.hourly_requests.length
    ∧ e.reset_in_minutes = Int.tdiv (s'.hourly_reset_time - now) 60
    ∧ e.try_again_at = s'.hourly_reset_time
    ∧ e.errorTag = "Rate limit exceeded"
    ∧ e.message = "Global rate limit of " ++ toString cfg.rate_limit_per_hour
        ++ " requests per hour reached" := by
  simp only [checkRateLimit] at h
  split at h
  · simp only [Prod.mk.injEq] at h
    exact absurd h.1 (by simp)
  · split at h
    · rename_i hcount
      simp only [Prod.mk.injEq, Except.error.injEq,
        AdmissionError.rateLimitExceeded.injEq] at h
      obtain ⟨he, hs⟩ := h
      subst hs
      subst he
      exact ⟨rfl, hcount, rfl, rfl, rfl, rfl⟩
    · split at h
      · simp only [Prod.mk.injEq] at h
        exact absurd h.1 (by simp)
      · simp only [Prod.mk.injEq] at h
        exact absurd h.1 (by simp)

/-- Witness for C9 (amended): on a ceiling of 1, one active request and a
hard reset 90 seconds away, the call at instant 0 is rejected and the
payload is `"1/1"`, 1 minute, reset instant 90. -/
theorem claim_C9_amended_witness :
    rateErrAtNearReset.current_usage =
        toString stateNearResetPost.hourly_requests.length ++ "/"
          ++ toString cfgOne.rate_limit_per_hour
    ∧ cfgOne.rate_limit_per_hour ≤ stateNearResetPost.hourly_requests.length
    ∧ rateErrAtNearReset.reset_in_minutes =
        Int.tdiv (stateNearResetPost.hourly_reset_time - 0) 60
    ∧ rateErrAtNearReset.try_again_at = stateNearResetPost.hourly_reset_time
    ∧ rateErrAtNearReset.errorTag = "Rate limit exceeded"
    ∧ rateErrAtNearReset.message = "Global rate limit of "
        ++ toString cfgOne.rate_limit_per_hour ++ " requests per hour reached" :=
  claim_C9_amended cfgOne 0 stateNearReset stateNearResetPost
    rateErrAtNearReset (by decide)

/-- Counterexample for C9 as stated: at a ceiling of 1 with the hourly
reset 90 seconds away, the rejection payload's only duration field,
`reset_in_minutes`, is 1 — not the 90 seconds until
`hourly_window_reset_at` that the claim says is carried. -/
theorem claim_C9_counterexample :
    (checkRateLimit cfgOne 0 stateNearReset).1 =
        Except.error (AdmissionError.rateLimitExceeded rateErrAtNearReset)
    ∧ stateNearReset.hourly_reset_time - 0 = 90
    ∧ rateErrAtNearReset.reset_in_minutes = 1
    ∧ rateErrAtNearReset.try_again_at = 90
    ∧ (1 : Int) ≠ 90 := by
  refine ⟨by decide, by decide, by decide, by decide, by decide⟩

/-- C5: when the kill switch is on, the daily window has not rolled over,
the pruned hourly count still has headroom, and the accrued daily cost is
at or above the ceiling, `check_rate_limit` fails with the cost-limit
error reporting the accrued cost, the ceiling and the daily reset instant,
and the current instant is not appended (the resulting request list is a
sublist of the prior one and the accrued cost is unchanged). -/
theorem claim_C5 (cfg : Settings) (now : Int) (s : LimiterState)
    (henabled : cfg.api_enabled = true)
    (hdaily : now < s.daily_reset_time)
    (hcost : cfg.max_daily_cost ≤ s.daily_estimated_cost)
    (hheadroom :
      (cleanOldRequests now (checkHourlyReset now s)).hourly_requests.length
        < cfg.rate_limit_per_hour) :
    ∃ s', checkRateLimit cfg now s =
        (Except.error (AdmissionError.costLimitExceeded
          { errorTag := "Daily cost limit exceeded",
            current_cost := s.daily_estimated_cost,
            cost_limit := cfg.max_daily_cost,
            resets_at := s.daily_reset_time }), s')
      ∧ s'.hourly_requests.Sublist s.hourly_requests
      ∧ s'.daily_estimated_cost = s.daily_estimated_cost
      ∧ s'.daily_reset_time = s.daily_reset_time := by
  have h2 : checkDailyReset now (checkHourlyReset now s)
      = checkHourlyReset now s :=
    checkDailyReset_of_lt (by rw [checkHourlyReset_daily_reset_time]; exact hdaily)
  have hcostclean :
      (cleanOldRequests now (checkHourlyReset now s)).daily_estimated_cost
        = s.daily_estimated_cost := checkHourlyReset_daily_cost now s
  have hsub : (cleanOldRequests now
        (checkHourlyReset now s)).hourly_requests.Sublist s.hourly_requests := by
    unfold cleanOldRequests
    unfold checkHourlyReset resetHourlyData
    split
    · simp
    · exact List.filter_sublist _
  refine ⟨cleanOldRequests now (checkHourlyReset now s), ?_, hsub, hcostclean, ?_⟩
  · simp only [checkRateLimit]
    rw [if_neg (by simp [henabled])]
    rw [h2]
    rw [if_neg (not_le.mpr hheadroom)]
    rw [if_pos (by rw [hcostclean]; exact hcost)]
    have hreset : (cleanOldRequests now
        (checkHourlyReset now s)).daily_reset_time = s.daily_reset_time :=
      checkHourlyReset_daily_reset_time now s
    rw [hcostclean, hreset]
  · show (checkHourlyReset now s).daily_reset_time = s.daily_reset_time
    exact checkHourlyReset_daily_reset_time now s

/-- Witness for C5: with the default $5 ceiling, $6 accrued, an empty
hourly window and the daily boundary a day away, the call at instant 0 is
rejected with the cost-limit payload ($6 accrued, $5 ceiling, reset at
86400) and nothing is appended. -/
theorem claim_C5_witness :
    ∃ s', checkRateLimit defaultSettings 0 stateOverBudget =
        (Except.error (AdmissionError.costLimitExceeded
          { errorTag := "Daily cost limit exceeded",
            current_cost := stateOverBudget.daily_estimated_cost,
            cost_limit := defaultSettings.max_daily_cost,
            resets_at := stateOverBudget.daily_reset_time }), s')
      ∧ s'.hourly_requests.Sublist stateOverBudget.hourly_requests
      ∧ s'.daily_estimated_cost = stateOverBudget.daily_estimated_cost
      ∧ s'.daily_reset_time = stateOverBudget.daily_reset_time :=
  claim_C5 defaultSettings 0 stateOverBudget rfl (by decide)
    (by norm_num [stateOverBudget, defaultSettings]) (by decide)

/-! ## The hourly-window induction behind C1 and C2 -/

lemma windowInv_init (t0 : Int) : WindowInv t0 0 (initState t0) := by
  refine ⟨rfl, ?_, rfl, rfl⟩
  intro t ht
  simp [initState, resetDailyData, resetHourlyData] at ht

/-- A `check_rate_limit` call inside the window, below the ceiling, with a
positive cost budget: it succeeds, reports `k + 1` requests this hour and
re-establishes the window invariant with one more entry. -/
lemma window_check_ok {cfg : Settings} {t0 t : Int} {k : Nat}
    {s : LimiterState} (inv : WindowInv t0 k s)
    (henabled : cfg.api_enabled = true) (hbudget : 0 < cfg.max_daily_cost)
    (hk : k < cfg.rate_limit_per_hour) (ht0 : t0 ≤ t) (ht1 : t < t0 + 3600) :
    ∃ u s', checkRateLimit cfg t s = (Except.ok u, s')
      ∧ u.requests_this_hour = k + 1 ∧ WindowInv t0 (k + 1) s' := by
  have h1 : checkHourlyReset t s = s :=
    checkHourlyReset_of_lt (by rw [inv.hrt]; omega)
  have h2req : (checkDailyReset t s).hourly_requests = s.hourly_requests :=
    checkDailyReset_hourly_requests t s
  have h2rt : (checkDailyReset t s).hourly_reset_time = s.hourly_reset_time :=
    checkDailyReset_hourly_reset_time t s
  have h2cost : (checkDailyReset t s).daily_estimated_cost = 0 :=
    checkDailyReset_cost_eq_zero inv.cost
  have h3 : cleanOldRequests t (checkDailyReset t s) = checkDailyReset t s := by
    apply cleanOldRequests_eq_self
    rw [h2req]
    intro u hu
    have := inv.mem u hu
    omega
  have hmain : checkRateLimit cfg t s =
      (Except.ok
        { requests_this_hour :=
            (checkDailyReset t s).hourly_requests.length + 1,
          limit_per_hour := cfg.rate_limit_per_hour,
          remaining_this_hour := (cfg.rate_limit_per_hour : Int)
            - (checkDailyReset t s).hourly_requests.length - 1,
          daily_cost := (checkDailyReset t s).daily_estimated_cost,
          daily_cost_limit := cfg.max_daily_cost },
       { checkDailyReset t s with
          hourly_requests := (checkDailyReset t s).hourly_requests ++ [t] }) := by
    simp only [checkRateLimit]
    rw [if_neg (by simp [henabled]), h1, h3]
    rw [if_neg (by rw [h2req, inv.len]; omega)]
    rw [if_neg (by rw [h2cost]; exact not_le.mpr hbudget)]
  refine ⟨_, _, hmain, ?_, ?_⟩
  · show (checkDailyReset t s).hourly_requests.length + 1 = k + 1
    rw [h2req, inv.len]
  · refine ⟨?_, ?_, ?_, ?_⟩
    · show ((checkDailyReset t s).hourly_requests ++ [t]).length = k + 1
      rw [List.length_append, h2req, inv.len]
      rfl
    · intro u hu
      rw [h2req] at hu
      rcases List.mem_append.mp hu with hmem | hmem
      · exact inv.mem u hmem
      · rw [List.mem_singleton.mp hmem]
        exact ht0
    · show (checkDailyReset t s).hourly_reset_time = t0 + 3600
      rw [h2rt, inv.hrt]
    · exact h2cost

/-- A `check_rate_limit` call inside the window once the count is at or
above the ceiling: it fails with the rate-limit error, the state only
undergoes the (no-op) rollovers and pruning, and the invariant is kept at
`k`. -/
lemma window_check_limit {cfg : Settings} {t0 t : Int} {k : Nat}
    {s : LimiterState} (inv : WindowInv t0 k s)
    (henabled : cfg.api_enabled = true)
    (hk : cfg.rate_limit_per_hour ≤ k) (ht0 : t0 ≤ t) (ht1 : t < t0 + 3600) :
    ∃ e, checkRateLimit cfg t s =
        (Except.error (AdmissionError.rateLimitExceeded e),
         checkDailyReset t s)
      ∧ WindowInv t0 k (checkDailyReset t s) := by
  have h1 : checkHourlyReset t s = s :=
    checkHourlyReset_of_lt (by rw [inv.hrt]; omega)
  have h2req : (checkDailyReset t s).hourly_requests = s.hourly_requests :=
    checkDailyReset_hourly_requests t s
  have h2rt : (checkDailyReset t s).hourly_reset_time = s.hourly_reset_time :=
    checkDailyReset_hourly_reset_time t s
  have h2cost : (checkDailyReset t s).daily_estimated_cost = 0 :=
    checkDailyReset_cost_eq_zero inv.cost
  have h3 : cleanOldRequests t (checkDailyReset t s) = checkDailyReset t s := by
    apply cleanOldRequests_eq_self
    rw [h2req]
    intro u hu
    have := inv.mem u hu
    omega
  have hmain : checkRateLimit cfg t s =
      (Except.error (AdmissionError.rateLimitExceeded
        (hourlyLimitError cfg t (checkDailyReset t s)
          (checkDailyReset t s).hourly_requests.length)),
       checkDailyReset t s) := by
    simp only [checkRateLimit]
    rw [if_neg (by simp [henabled]), h1, h3]
    rw [if_pos (by rw [h2req, inv.len]; omega)]
  refine ⟨_, hmain, ?_, ?_, ?_, ?_⟩
  · rw [h2req, inv.len]
  · intro u hu
    rw [h2req] at hu
    exact inv.mem u hu
  · rw [h2rt, inv.hrt]
  · exact h2cost

lemma runChecks_length (cfg : Settings) (ts : List Int) (s : LimiterState) :
    (runChecks cfg ts s).1.length = ts.length := by
  induction ts generalizing s with
  | nil => rfl
  | cons t rest ih => simp [runChecks, ih]

/-- The full window run: starting from `k` admitted requests, call `i`
succeeds with `k + i + 1` requests this hour while `k + i` is below the
ceiling and fails with the rate-limit error from there on, and exactly
`min (ceiling - k) |ts|` of the calls succeed. -/
lemma runChecks_window {cfg : Settings} {t0 : Int}
    (henabled : cfg.api_enabled = true) (hbudget : 0 < cfg.max_daily_cost) :
    ∀ (ts : List Int) (k : Nat) (s : LimiterState),
      WindowInv t0 k s →
      (∀ t ∈ ts, t0 ≤ t ∧ t < t0 + 3600) →
      (∀ i : Nat, i < ts.length →
        (k + i < cfg.rate_limit_per_hour →
          ∃ u, (runChecks cfg ts s).1.get? i = some (Except.ok u)
            ∧ u.requests_this_hour = k + i + 1)
        ∧ (cfg.rate_limit_per_hour ≤ k + i →
          ∃ e, (runChecks cfg ts s).1.get? i =
            some (Except.error (AdmissionError.rateLimitExceeded e))))
      ∧ (runChecks cfg ts s).1.countP admissionOk
          = min (cfg.rate_limit_per_hour - k) ts.length := by
  intro ts
  induction ts with
  | nil =>
      intro k s inv hts
      refine ⟨fun i hi => absurd hi (by simp), ?_⟩
      simp [runChecks]
  | cons t rest ih =>
      intro k s inv hts
      obtain ⟨ht0, ht1⟩ := hts t (List.mem_cons_self t rest)
      have hrest : ∀ x ∈ rest, t0 ≤ x ∧ x < t0 + 3600 :=
        fun x hx => hts x (List.mem_cons_of_mem t hx)
      by_cases hk : k < cfg.rate_limit_per_hour
      · obtain ⟨u, s', heq, hu, inv'⟩ :=
          window_check_ok inv henabled hbudget hk ht0 ht1
        have hstep : (runChecks cfg (t :: rest) s).1
            = Except.ok u :: (runChecks cfg rest s').1 := by
          simp only [runChecks, heq]
        obtain ⟨ihp, ihc⟩ := ih (k + 1) s' inv' hrest
        refine ⟨?_, ?_⟩
        · intro i hi
          cases i with
          | zero =>
              refine ⟨fun _ => ⟨u, ?_, by omega⟩,
                fun hc => absurd hc (by omega)⟩
              rw [hstep]
              rfl
          | succ j =>
              have hj : j < rest.length := by
                simp only [List.length_cons] at hi
                omega
              obtain ⟨p1, p2⟩ := ihp j hj
              refine ⟨fun hlt => ?_, fun hge => ?_⟩
              · obtain ⟨u', hget, hreq⟩ := p1 (by omega)
                refine ⟨u', ?_, by omega⟩
                rw [hstep]
                exact hget
              · obtain ⟨e, hget⟩ := p2 (by omega)
                refine ⟨e, ?_⟩
                rw [hstep]
                exact hget
        · rw [hstep, List.countP_cons, ihc]
          simp only [admissionOk, List.length_cons, decide_True, if_true]
          omega
      · push_neg at hk
        obtain ⟨e, heq, inv'⟩ := window_check_limit inv henabled hk ht0 ht1
        have hstep : (runChecks cfg (t :: rest) s).1
            = Except.error (AdmissionError.rateLimitExceeded e)
              :: (runChecks cfg rest (checkDailyReset t s)).1 := by
          simp only [runChecks, heq]
        obtain ⟨ihp, ihc⟩ := ih k (checkDailyReset t s) inv' hrest
        refine ⟨?_, ?_⟩
        · intro i hi
          cases i with
          | zero =>
              refine ⟨fun hlt => absurd hlt (by omega), fun _ => ⟨e, ?_⟩⟩
              rw [hstep]
              rfl
          | succ j =>
              have hj : j < rest.length := by
                simp only [List.length_cons] at hi
                omega
              obtain ⟨p1, p2⟩ := ihp j hj
              refine ⟨fun hlt => absurd hlt (by omega), fun hge => ?_⟩
              obtain ⟨e', hget⟩ := p2 (by omega)
              refine ⟨e', ?_⟩
              rw [hstep]
              exact hget
        · rw [hstep, List.countP_cons, ihc]
          simp only [admissionOk, List.length_cons]
          norm_num
          omega

/-! ## Claims C1 and C2 -/

/-- C1: from a fresh controller with the kill switch on and a positive cost
budget, for calls all within the first hourly window, the `i`-th call
(0-based) while `i` is below the ceiling succeeds and reports
`requests_this_hour = i + 1` (so the reported counts are `1, 2, 3, ...`,
strictly increasing), and every call from the ceiling-th on — in
particular the first one after the ceiling is reached — fails with the
rate-limit error. -/
theorem claim_C1 (cfg : Settings) (t0 : Int) (ts : List Int)
    (henabled : cfg.api_enabled = true)
    (hbudget : 0 < cfg.max_daily_cost)
    (hts : ∀ t ∈ ts, t0 ≤ t ∧ t < t0 + 3600) :
    (runChecks cfg ts (initState t0)).1.length = ts.length
    ∧ ∀ i : Nat, i < ts.length →
      (i < cfg.rate_limit_per_hour →
        ∃ u, (runChecks cfg ts (initState t0)).1.get? i
            = some (Except.ok u)
          ∧ u.requests_this_hour = i + 1)
      ∧ (cfg.rate_limit_per_hour ≤ i →
        ∃ e, (runChecks cfg ts (initState t0)).1.get? i =
          some (Except.error (AdmissionError.rateLimitExceeded e))) := by
  have h := runChecks_window henabled hbudget ts 0 (initState t0)
    (windowInv_init t0) hts
  refine ⟨runChecks_length cfg ts (initState t0), ?_⟩
  intro i hi
  obtain ⟨p1, p2⟩ := h.1 i hi
  constructor
  · intro hlt
    obtain ⟨u, hget, hreq⟩ := p1 (by omega)
    exact ⟨u, hget, by omega⟩
  · intro hge
    exact p2 (by omega)

/-- Witness for C1: ceiling 2, three calls at instants 0, 1, 2 on a fresh
controller — the second call reports 2 requests this hour and the third is
rejected with the rate-limit error. -/
theorem claim_C1_witness :
    (∃ u, (runChecks cfgSmall [0, 1, 2] (initState 0)).1.get? 1
        = some (Except.ok u) ∧ u.requests_this_hour = 2)
    ∧ ∃ e, (runChecks cfgSmall [0, 1, 2] (initState 0)).1.get? 2 =
        some (Except.error (AdmissionError.rateLimitExceeded e)) := by
  have h := claim_C1 cfgSmall 0 [0, 1, 2] rfl (by decide) (by decide)
  exact ⟨(h.2 1 (by decide)).1 (by decide), (h.2 2 (by decide)).2 (by decide)⟩

lemma checkRateLimit_snd_length_le (cfg : Settings) (now : Int)
    (s : LimiterState)
    (h : s.hourly_requests.length ≤ cfg.rate_limit_per_hour) :
    (checkRateLimit cfg now s).2.hourly_requests.length
      ≤ cfg.rate_limit_per_hour := by
  simp only [checkRateLimit]
  split
  · exact h
  · split
    · exact le_trans (rollPrune_length_le now s) h
    · rename_i hcount
      split
      · exact le_trans (rollPrune_length_le now s) h
      · simp only [List.length_append, List.length_singleton]
        omega

lemma recordUsage_snd_hourly (cfg : Settings) (input_tokens output_tokens : Nat)
    (now : Int) (s : LimiterState) :
    (recordUsage cfg input_tokens output_tokens now s).2.hourly_requests
      = s.hourly_requests := by
  simp only [recordUsage]
  exact checkDailyReset_hourly_requests now s

lemma getStats_snd_length_le (cfg : Settings) (now : Int) (s : LimiterState) :
    (getStats cfg now s).2.hourly_requests.length
      ≤ s.hourly_requests.length :=
  rollPrune_length_le now s

/-- C2: in the atomic-step model justified by the single exclusive lock
(each public operation is one indivisible step), (a) every state reachable
from a fresh controller by any interleaving of `check_rate_limit`,
`record_usage` and `get_stats` steps keeps the hourly request list at or
below the configured ceiling, and (b) when more than `ceiling` admission
checks run within one window on a fresh enabled controller with budget,
exactly `ceiling` of them succeed and every failed one failed with the
rate-limit error. -/
theorem claim_C2 (cfg : Settings) :
    (∀ s, Reachable cfg s →
      s.hourly_requests.length ≤ cfg.rate_limit_per_hour)
    ∧ (∀ (t0 : Int) (ts : List Int),
        cfg.api_enabled = true → 0 < cfg.max_daily_cost →
        (∀ t ∈ ts, t0 ≤ t ∧ t < t0 + 3600) →
        cfg.rate_limit_per_hour < ts.length →
        (runChecks cfg ts (initState t0)).1.length = ts.length
        ∧ (runChecks cfg ts (initState t0)).1.countP admissionOk
            = cfg.rate_limit_per_hour
        ∧ ∀ r ∈ (runChecks cfg ts (initState t0)).1,
            admissionOk r = false →
            ∃ e, r = Except.error (AdmissionError.rateLimitExceeded e)) := by
  constructor
  · intro s hs
    induction hs with
    | init t0 => simp [initState, resetDailyData, resetHourlyData]
    | step hr hstep ih =>
        cases hstep with
        | check now => exact checkRateLimit_snd_length_le cfg now _ ih
        | record input_tokens output_tokens now =>
            rw [recordUsage_snd_hourly]
            exact ih
        | stats now => exact le_trans (getStats_snd_length_le cfg now _) ih
  · intro t0 ts hen hbud hts hlen
    have h := runChecks_window hen hbud ts 0 (initState t0)
      (windowInv_init t0) hts
    refine ⟨runChecks_length cfg ts (initState t0), ?_, ?_⟩
    · rw [h.2]
      omega
    · intro r hr hnotok
      obtain ⟨i, hget⟩ := List.mem_iff_get?.mp hr
      have hilen : i < (runChecks cfg ts (initState t0)).1.length := by
        rcases List.get?_eq_some.mp hget with ⟨hi, _⟩
        exact hi
      have hits : i < ts.length := by
        rwa [runChecks_length cfg ts (initState t0)] at hilen
      obtain ⟨p1, p2⟩ := h.1 i hits
      by_cases hcase : i < cfg.rate_limit_per_hour
      · obtain ⟨u, hgu, _⟩ := p1 (by omega)
        have hru : r = Except.ok u := Option.some.inj (hget.symm.trans hgu)
        rw [hru] at hnotok
        simp [admissionOk] at hnotok
      · obtain ⟨e, hge⟩ := p2 (by omega)
        exact ⟨e, Option.some.inj (hget.symm.trans hge)⟩

/-- Witness for C2: the fresh state is within the default ceiling, and on a
ceiling of 2 a burst of three window calls admits exactly 2. -/
theorem claim_C2_witness :
    (initState 0).hourly_requests.length ≤ defaultSettings.rate_limit_per_hour
    ∧ (runChecks cfgSmall [0, 1, 2] (initState 0)).1.countP admissionOk = 2 :=
  ⟨(claim_C2 defaultSettings).1 (initState 0) (Reachable.init 0),
   ((claim_C2 cfgSmall).2 0 [0, 1, 2] rfl (by decide) (by decide)
     (by decide)).2.1⟩

end MyBot
